import Mathlib

/-!
Shallow embedding of `stack.py`: a mutable, polymorphic LIFO `Stack` class.

The Python object `Stack` has two instance attributes: `self.elts`, the list of
elements with index 0 the bottom and the last index the top, and `self.index`,
the iteration cursor used by `__iter__`/`__next__`.  We embed the object state
as the structure `Stack T` below and each method as a pure function; methods
that mutate `self` (or can raise) return the post-state of the object
explicitly, paired with the returned value or error.

Python exceptions are embedded as the type `Err`: `IndexError` (raised by
`pop` on an empty stack) is the spec's `EmptyContainer` kind and `TypeError`
(raised by `extend` on a non-tuple/list argument and by `__mul__` on a bad
multiplier) is the spec's `InvalidArgument` kind.
-/

/-- Error kinds raised by the Python code: `IndexError` from `pop` is the
`EmptyContainer` kind, `TypeError` from `extend`/`__mul__` is the
`InvalidArgument` kind. -/
inductive Err where
  | emptyContainer
  | invalidArgument
deriving DecidableEq

/-- The Python runtime type of the packed variadic argument `items` inside
`extend(self, *items)`, tested by `type(items) in (tuple, list)`.  A call
through the variadic signature always packs the arguments into a tuple. -/
inductive PyType where
  | tuple
  | list
  | other
deriving DecidableEq

/-- The multiplier argument of `__mul__`: the Python code tests
`isinstance(num, Integral)`, so the argument is either an integral number
(embedded as `Int`) or some non-integral value. -/
inductive PyNum where
  | integral (n : Int)
  | nonIntegral
deriving DecidableEq

/-- Outcome of one `__next__` call: an element, `StopIteration`, or the
`IndexError` that `self.elts[self.index]` would raise out of range. -/
inductive NextRes (T : Type) where
  | item (x : T)
  | stop
  | idxError
deriving DecidableEq

/-- A heterogeneous Python value domain with a `None` value, used to state
properties of `top()`, which returns the Python value `None` on an empty
stack. -/
inductive PyVal where
  | none
  | int (n : Int)
  | str (s : String)
deriving DecidableEq

/-- Object state of a `Stack` instance: `__init__` sets `self.index = 0` and
`self.elts = list(items)`. -/
structure Stack (T : Type) where
  index : Nat
  elts : List T
deriving DecidableEq

namespace Stack

variable {T : Type}

/-- `Stack(*items)`: `self.index = 0`, `self.elts = list(items)`. -/
def make (items : List T) : Stack T := ⟨0, items⟩

/-- `is_empty(self)`: `len(self.elts) == 0`. -/
def is_empty (s : Stack T) : Bool := s.elts.length = 0

/-- `items(self)`: returns `self.elts` (bottom to top). -/
def items (s : Stack T) : List T := s.elts

/-- `list(self)`: returns `list(reversed(self.elts))` (top to bottom). -/
def list (s : Stack T) : List T := s.elts.reverse

/-- `pop(self)`: if `len(self.elts) > 0`, read `self.elts[-1]`, delete it and
return it; otherwise raise `IndexError` (the `EmptyContainer` kind), leaving
the state untouched. -/
def pop (s : Stack T) : Except Err T × Stack T :=
  match s.elts.getLast? with
  | some x => (Except.ok x, { s with elts := s.elts.dropLast })
  | Option.none => (Except.error Err.emptyContainer, s)

/-- `push(self, item)`: append `item` when the list is non-empty, else rebind
`self.elts = [item]`; returns `self`. -/
def push (s : Stack T) (item : T) : Stack T :=
  if s.elts.length > 0 then { s with elts := s.elts ++ [item] }
  else { s with elts := [item] }

/-- `top(self)`: `self.elts[-1] if len(self.elts) > 0 else None`, over the
heterogeneous Python value domain; reads only, so the post-state is `s`. -/
def topPy (s : Stack PyVal) : PyVal × Stack PyVal :=
  (match s.elts.getLast? with
   | some x => x
   | Option.none => PyVal.none, s)

/-- `extend(self, *items)` body: if `type(items) in (tuple, list)` then
`self.elts.extend(items)` and return `self`, else raise `TypeError`
(the `InvalidArgument` kind). -/
def extend (s : Stack T) (ty : PyType) (its : List T) : Except Err (Stack T) :=
  if ty = PyType.tuple ∨ ty = PyType.list then
    Except.ok { s with elts := s.elts ++ its }
  else
    Except.error Err.invalidArgument

/-- A call `s.extend(x1, ..., xk)` through the variadic signature: Python
packs the arguments into a tuple, so `type(items)` is always `tuple`. -/
def extendVariadic (s : Stack T) (its : List T) : Except Err (Stack T) :=
  extend s PyType.tuple its

/-- `__iter__(self)`: sets `self.index = len(self)` and returns `self`. -/
def iterInit (s : Stack T) : Stack T := { s with index := s.elts.length }

/-- `__next__(self)`: if `self.index <= 0 or self.is_empty()`, reset the
cursor to `len(self)` and raise `StopIteration`; otherwise decrement
`self.index` and return `self.elts[self.index]` (an out-of-range read would
raise `IndexError` after the decrement). -/
def next (s : Stack T) : NextRes T × Stack T :=
  if s.index ≤ 0 ∨ is_empty s = true then
    (NextRes.stop, { s with index := s.elts.length })
  else
    match s.elts.get? (s.index - 1) with
    | some x => (NextRes.item x, { s with index := s.index - 1 })
    | Option.none => (NextRes.idxError, { s with index := s.index - 1 })

/-- Run `__next__` repeatedly, collecting yielded elements until the first
non-element outcome; `fuel` bounds the number of calls. -/
def collectNext (fuel : Nat) (s : Stack T) : List T × Stack T :=
  match fuel with
  | 0 => ([], s)
  | Nat.succ k =>
    match next s with
    | (NextRes.item x, s1) =>
      let r := collectNext k s1
      (x :: r.1, r.2)
    | (NextRes.stop, s1) => ([], s1)
    | (NextRes.idxError, s1) => ([], s1)

/-- A fresh, complete `for x in s` traversal: `iter(s)` then `__next__` until
`StopIteration`.  `len(self) + 1` calls always suffice for an unmutated
stack, since each yielding call decrements the cursor. -/
def forList (s : Stack T) : List T × Stack T :=
  collectNext (s.elts.length + 1) (iterInit s)

/-- `__add__(self, stack)`: `self.elts.extend(stack)` iterates the argument
through its own iterator protocol and appends what it yields, then returns
`self`.  Result: (post-state of `self` = returned stack, post-state of the
argument). -/
def add (a b : Stack T) : Stack T × Stack T :=
  let r := forList b
  ({ a with elts := a.elts ++ r.1 }, r.2)

/-- The loop `for i in range(num - 1): self.extend(*items)` of `__mul__`,
where `items = self.elts` is an alias of the live list, not a copy: each
`*items` unpacking snapshots the current contents of `self.elts` at that
call, so each iteration appends the list to itself. -/
def mulLoop (s : Stack T) : Nat → Stack T
  | 0 => s
  | Nat.succ k =>
    match extend s PyType.tuple s.elts with
    | Except.ok s1 => mulLoop s1 k
    | Except.error _ => s

/-- `__mul__(self, num)`: on a non-negative integral `num`, return a fresh
empty `Stack()` when `num == 0`, else run the extend loop `num - 1` times and
return `self`; otherwise raise `TypeError` (the `InvalidArgument` kind)
before any mutation.  Result: (returned value or error, post-state of
`self`). -/
def mul (s : Stack T) (num : PyNum) : Except Err (Stack T) × Stack T :=
  match num with
  | PyNum.integral n =>
    if 0 ≤ n then
      if n = 0 then (Except.ok (make []), s)
      else
        let s1 := mulLoop s (n - 1).toNat
        (Except.ok s1, s1)
    else (Except.error Err.invalidArgument, s)
  | PyNum.nonIntegral => (Except.error Err.invalidArgument, s)

/-- Push `xs` in order, first to last, by repeated `push`. -/
def pushList (s : Stack T) (xs : List T) : Stack T := xs.foldl push s

/-- Perform `k` successive `pop` calls, collecting the returned values in
order; stops early at the first error. -/
def popN (s : Stack T) : Nat → List T × Stack T
  | 0 => ([], s)
  | Nat.succ k =>
    match pop s with
    | (Except.ok x, s1) =>
      let r := popN s1 k
      (x :: r.1, r.2)
    | (Except.error _, s1) => ([], s1)

/-! Helper lemmas about the embedded operations. -/

theorem push_elts (s : Stack T) (x : T) :
    push s x = { s with elts := s.elts ++ [x] } := by
  unfold push
  by_cases h : s.elts.length > 0
  · simp [h]
  · have h0 : s.elts = [] := List.eq_nil_of_length_eq_zero (Nat.eq_zero_of_not_pos h)
    simp [h, h0]

theorem pushList_elts (xs : List T) :
    ∀ s : Stack T, pushList s xs = { s with elts := s.elts ++ xs } := by
  induction xs with
  | nil => intro s; simp [pushList]
  | cons x xs ih =>
    intro s
    have h : pushList s (x :: xs) = pushList (push s x) xs := rfl
    rw [h, ih, push_elts]
    simp

theorem pop_concat (s : Stack T) (xs : List T) (x : T) (h : s.elts = xs ++ [x]) :
    pop s = (Except.ok x, { s with elts := xs }) := by
  unfold pop
  rw [h]
  simp

theorem popN_rev (ys : List T) :
    ∀ s : Stack T, popN { s with elts := s.elts ++ ys.reverse } ys.length = (ys, s) := by
  induction ys with
  | nil => intro s; simp [popN]
  | cons y ys ih =>
    intro s
    have e1 : ({ s with elts := s.elts ++ (y :: ys).reverse } : Stack T) =
        { s with elts := (s.elts ++ ys.reverse) ++ [y] } := by simp
    have e2 : pop ({ s with elts := (s.elts ++ ys.reverse) ++ [y] } : Stack T) =
        (Except.ok y, { s with elts := s.elts ++ ys.reverse }) :=
      pop_concat _ _ _ rfl
    rw [List.length_cons, e1]
    simp only [popN, e2, ih s]

theorem extend_tuple (s : Stack T) (xs : List T) :
    extend s PyType.tuple xs = Except.ok { s with elts := s.elts ++ xs } := by
  unfold extend
  rw [if_pos (Or.inl rfl)]

theorem collectNext_run (E : List T) :
    ∀ (k fuel : Nat), k ≤ E.length → k < fuel →
      collectNext fuel (⟨k, E⟩ : Stack T) = ((E.take k).reverse, ⟨E.length, E⟩) := by
  intro k
  induction k with
  | zero =>
    intro fuel _ hf
    obtain ⟨f, rfl⟩ : ∃ f, fuel = f + 1 :=
      ⟨fuel - 1, (Nat.succ_pred_eq_of_pos hf).symm⟩
    simp [collectNext, next, is_empty]
  | succ k ih =>
    intro fuel hk hf
    obtain ⟨f, rfl⟩ : ∃ f, fuel = f + 1 :=
      ⟨fuel - 1, (Nat.succ_pred_eq_of_pos (Nat.lt_of_le_of_lt (Nat.zero_le _) hf)).symm⟩
    have hk' : k < E.length := Nat.lt_of_succ_le hk
    have hE : E.length ≠ 0 := by omega
    have hx : E[k]? = some (E.get ⟨k, hk'⟩) := by
      rw [List.getElem?_eq_getElem hk']
      rfl
    have hf' : k < f := by omega
    have hcond : ¬((⟨k + 1, E⟩ : Stack T).index ≤ 0 ∨ is_empty (⟨k + 1, E⟩ : Stack T) = true) := by
      simp [is_empty, hE]
    have hnext : next (⟨k + 1, E⟩ : Stack T) =
        (NextRes.item (E.get ⟨k, hk'⟩), ⟨k, E⟩) := by
      rw [next, if_neg hcond]
      simp [hx]
    simp only [collectNext, hnext, ih f (Nat.le_of_lt hk') hf']
    rw [List.take_succ, hx, List.reverse_append]
    rfl

theorem forList_run (s : Stack T) :
    forList s = (s.elts.reverse, ⟨s.elts.length, s.elts⟩) := by
  have e : iterInit s = (⟨s.elts.length, s.elts⟩ : Stack T) := rfl
  rw [forList, e,
    collectNext_run s.elts s.elts.length (s.elts.length + 1) (Nat.le_refl _) (Nat.lt_succ_self _),
    List.take_length]

/-! Claim theorems. -/

/-- Claim C1 fails on the code: `items = self.elts` in `__mul__` aliases the
live list instead of snapshotting it, and each `self.extend(*items)` re-reads
the grown list, so every loop iteration doubles the contents.  Concretely
`Stack(0) * 3` yields four elements, not `3 * 1 = 3`; in general, for an
integral multiplier `n ≥ 1` the loop leaves `length * 2 ^ (n - 1)` elements
rather than `length * n`. -/
theorem claimC1_mul_doubles {T : Type} :
    ((mul (⟨0, [0]⟩ : Stack Nat) (PyNum.integral 3)).2).elts = [0, 0, 0, 0] ∧
    ((mul (⟨0, [0]⟩ : Stack Nat) (PyNum.integral 3)).2).elts.length ≠
      3 * (⟨0, [0]⟩ : Stack Nat).elts.length ∧
    (∀ (s : Stack T) (k : Nat), (mulLoop s k).elts.length = s.elts.length * 2 ^ k) := by
  refine ⟨by decide, by decide, ?_⟩
  intro s k
  induction k generalizing s with
  | zero => simp [mulLoop]
  | succ k ih =>
    simp only [mulLoop, extend_tuple]
    rw [ih]
    simp [List.length_append, Nat.pow_succ]
    ring

/-- Witness for C1's general part at a concrete input: two loop iterations
over a one-element stack leave `1 * 2 ^ 2 = 4` elements. -/
theorem claimC1_mul_doubles_witness :
    (mulLoop (⟨0, [3]⟩ : Stack Nat) 2).elts.length = (⟨0, [3]⟩ : Stack Nat).elts.length * 2 ^ 2 :=
  (claimC1_mul_doubles (T := Nat)).2.2 (⟨0, [3]⟩ : Stack Nat) 2

/-- Claim C2 fails on the code: `self.elts.extend(stack)` in `__add__`
iterates the right operand through `Stack.__iter__`/`__next__`, which yields
elements top-to-bottom, so the right operand's elements are appended in
reversed (top-to-bottom) order, contradicting the claimed bottom-to-top
order: `Stack(0,1) + Stack(2,3)` yields `Stack(0,1,3,2)`, not
`Stack(0,1,2,3)`.  The right operand's element sequence is left unchanged. -/
theorem claimC2_add_reverses {T : Type} :
    (add (⟨0, [0, 1]⟩ : Stack Nat) ⟨0, [2, 3]⟩).1.elts = [0, 1, 3, 2] ∧
    (add (⟨0, [0, 1]⟩ : Stack Nat) ⟨0, [2, 3]⟩).2.elts = [2, 3] ∧
    ([0, 1, 3, 2] : List Nat) ≠ [0, 1, 2, 3] ∧
    (∀ a b : Stack T,
      (add a b).1.elts = a.elts ++ b.elts.reverse ∧ (add a b).2.elts = b.elts) := by
  refine ⟨by decide, by decide, by decide, ?_⟩
  intro a b
  rw [add, forList_run]
  exact ⟨rfl, rfl⟩

/-- Witness for C2's general part at a concrete input: `Stack(9) + Stack(2,3)`
appends the right operand's elements in reversed order and leaves its
sequence unchanged. -/
theorem claimC2_add_reverses_witness :
    (add (⟨0, [9]⟩ : Stack Nat) ⟨0, [2, 3]⟩).1.elts =
      (⟨0, [9]⟩ : Stack Nat).elts ++ (⟨0, [2, 3]⟩ : Stack Nat).elts.reverse ∧
    (add (⟨0, [9]⟩ : Stack Nat) ⟨0, [2, 3]⟩).2.elts = (⟨0, [2, 3]⟩ : Stack Nat).elts :=
  (claimC2_add_reverses (T := Nat)).2.2.2 (⟨0, [9]⟩ : Stack Nat) (⟨0, [2, 3]⟩ : Stack Nat)

/-- Claim C3: `pop` fails, with the `EmptyContainer` error kind (distinct
from the `InvalidArgument` kind), exactly when the stack is empty, and the
failed call leaves the state unchanged; on a non-empty stack it removes and
returns the top (last) element. -/
theorem claimC3_pop :
    ∀ {T : Type} (s : Stack T),
      (s.elts = [] → pop s = (Except.error Err.emptyContainer, s) ∧
        Err.emptyContainer ≠ Err.invalidArgument) ∧
      (∀ xs x, s.elts = xs ++ [x] → pop s = (Except.ok x, { s with elts := xs })) := by
  intro T s
  constructor
  · intro h
    refine ⟨?_, by simp⟩
    unfold pop
    rw [h]
    rfl
  · intro xs x h
    exact pop_concat s xs x h

/-- Witness for C3 at concrete inputs: popping the empty stack fails with the
`EmptyContainer` kind leaving it unchanged, and popping `Stack(7)` returns 7
leaving the empty stack. -/
theorem claimC3_pop_witness :
    pop (⟨0, ([] : List Nat)⟩ : Stack Nat) = (Except.error Err.emptyContainer, ⟨0, []⟩) ∧
    pop (⟨0, [7]⟩ : Stack Nat) = (Except.ok 7, ⟨0, []⟩) :=
  ⟨((claimC3_pop (⟨0, ([] : List Nat)⟩ : Stack Nat)).1 rfl).1,
   (claimC3_pop (⟨0, [7]⟩ : Stack Nat)).2 [] 7 rfl⟩

/-- Claim C4 (LIFO law): pushing `x1..xk` in order and then popping `k` times
returns the values in exact reverse push order and restores the stack to its
pre-push state. -/
theorem claimC4_lifo :
    ∀ {T : Type} (s : Stack T) (xs : List T),
      popN (pushList s xs) xs.length = (xs.reverse, s) := by
  intro T s xs
  have h := popN_rev xs.reverse s
  simp only [List.reverse_reverse, List.length_reverse] at h
  rw [pushList_elts]
  exact h

/-- Witness for C4 at a concrete input: pushing 1 then 2 onto `Stack(0)` and
popping twice returns `[2, 1]` and restores `Stack(0)`. -/
theorem claimC4_lifo_witness :
    popN (pushList (⟨0, [0]⟩ : Stack Nat) [1, 2]) ([1, 2] : List Nat).length =
      (([1, 2] : List Nat).reverse, (⟨0, [0]⟩ : Stack Nat)) :=
  claimC4_lifo (⟨0, [0]⟩ : Stack Nat) [1, 2]

/-- Claim C5: `list()` (top-to-bottom) is the exact reverse of `items()`
(bottom-to-top), for every stack state. -/
theorem claimC5_items_reverse :
    ∀ {T : Type} (s : Stack T),
      Stack.list s = (items s).reverse ∧ items s = (Stack.list s).reverse := by
  intro T s
  constructor
  · rfl
  · simp [Stack.list, items]

/-- Witness for C5 at a concrete input. -/
theorem claimC5_items_reverse_witness :
    Stack.list (⟨0, [1, 2]⟩ : Stack Nat) = (items (⟨0, [1, 2]⟩ : Stack Nat)).reverse ∧
    items (⟨0, [1, 2]⟩ : Stack Nat) = (Stack.list (⟨0, [1, 2]⟩ : Stack Nat)).reverse :=
  claimC5_items_reverse (⟨0, [1, 2]⟩ : Stack Nat)

/-- Claim C6: `s * 0` returns a fresh empty `Stack()` and leaves `s`
unmutated, and `s * 1` returns `s` itself with its element sequence
unchanged. -/
theorem claimC6_mul_zero_one :
    ∀ {T : Type} (s : Stack T),
      mul s (PyNum.integral 0) = (Except.ok (make []), s) ∧
      mul s (PyNum.integral 1) = (Except.ok s, s) := by
  intro T s
  constructor
  · rw [mul]
    norm_num
  · rw [mul]
    norm_num
    rfl

/-- Witness for C6 at a concrete input. -/
theorem claimC6_mul_zero_one_witness :
    mul (⟨0, [1, 2]⟩ : Stack Nat) (PyNum.integral 0) =
      (Except.ok (make []), (⟨0, [1, 2]⟩ : Stack Nat)) ∧
    mul (⟨0, [1, 2]⟩ : Stack Nat) (PyNum.integral 1) =
      (Except.ok (⟨0, [1, 2]⟩ : Stack Nat), (⟨0, [1, 2]⟩ : Stack Nat)) :=
  claimC6_mul_zero_one (⟨0, [1, 2]⟩ : Stack Nat)

/-- Claim C7: `repeat` (operator `*`) fails, with the `InvalidArgument`
kind, exactly when the multiplier is negative or non-integral, and a failed
call leaves the state unchanged. -/
theorem claimC7_mul_invalid :
    ∀ {T : Type} (s : Stack T) (n : Int),
      (n < 0 → mul s (PyNum.integral n) = (Except.error Err.invalidArgument, s)) ∧
      (mul s PyNum.nonIntegral = (Except.error Err.invalidArgument, s)) ∧
      (0 ≤ n → ∀ e, (mul s (PyNum.integral n)).1 ≠ Except.error e) := by
  intro T s n
  refine ⟨?_, rfl, ?_⟩
  · intro h
    rw [mul, if_neg (by omega)]
  · intro h e
    rw [mul, if_pos h]
    by_cases h0 : n = 0 <;> simp [h0]

/-- Witness for C7 at concrete inputs: `Stack(5) * (-1)` fails with the
`InvalidArgument` kind leaving the stack unchanged, and `Stack(5) * 2` does
not fail. -/
theorem claimC7_mul_invalid_witness :
    mul (⟨0, [5]⟩ : Stack Nat) (PyNum.integral (-1)) =
      (Except.error Err.invalidArgument, ⟨0, [5]⟩) ∧
    (mul (⟨0, [5]⟩ : Stack Nat) (PyNum.integral 2)).1 ≠
      Except.error Err.invalidArgument :=
  ⟨(claimC7_mul_invalid (⟨0, [5]⟩ : Stack Nat) (-1)).1 (by norm_num),
   (claimC7_mul_invalid (⟨0, [5]⟩ : Stack Nat) 2).2.2 (by norm_num) Err.invalidArgument⟩

/-- Claim C8: a fresh, complete iteration over an unmutated stack yields its
elements top-to-bottom, the same sequence as `list()`; in particular
iterating `Stack(0,1,2,3)` yields `[3,2,1,0]`. -/
theorem claimC8_iter_top_to_bottom {T : Type} :
    (∀ s : Stack T, (forList s).1 = Stack.list s) ∧
    (forList (⟨0, [0, 1, 2, 3]⟩ : Stack Nat)).1 = [3, 2, 1, 0] := by
  constructor
  · intro s
    rw [forList_run]
    rfl
  · decide

/-- Witness for C8 at a concrete input: iterating `Stack(5,6)` yields the
same sequence as `list()`. -/
theorem claimC8_iter_top_to_bottom_witness :
    (forList (⟨0, [5, 6]⟩ : Stack Nat)).1 = Stack.list (⟨0, [5, 6]⟩ : Stack Nat) :=
  (claimC8_iter_top_to_bottom (T := Nat)).1 (⟨0, [5, 6]⟩ : Stack Nat)

/-- Claim C9: a call through the variadic `extend` signature always packs the
arguments into a tuple, so the `TypeError` branch is unreachable: `extend`
always succeeds, appending the given items in order to the element list of
the same instance it returns. -/
theorem claimC9_extend_total :
    ∀ {T : Type} (s : Stack T) (xs : List T),
      extendVariadic s xs = Except.ok { s with elts := s.elts ++ xs } ∧
      ∀ e, extendVariadic s xs ≠ Except.error e := by
  intro T s xs
  have h : extendVariadic s xs = Except.ok { s with elts := s.elts ++ xs } :=
    extend_tuple s xs
  refine ⟨h, ?_⟩
  intro e hc
  rw [h] at hc
  exact Except.noConfusion hc

/-- Witness for C9 at a concrete input: extending `Stack(1)` with 2 and 3
succeeds and appends them in order. -/
theorem claimC9_extend_total_witness :
    extendVariadic (⟨0, [1]⟩ : Stack Nat) [2, 3] = Except.ok (⟨0, [1, 2, 3]⟩ : Stack Nat) :=
  (claimC9_extend_total (⟨0, [1]⟩ : Stack Nat) [2, 3]).1

/-- Claim C10: `top()` performs no mutation and returns Python `None` on an
empty stack; hence the non-empty stack `Stack(None)` is indistinguishable
from the empty stack by `top()` alone, although the two differ in emptiness. -/
theorem claimC10_top :
    (∀ s : Stack PyVal, (topPy s).2 = s) ∧
    (∀ s : Stack PyVal, s.elts = [] → (topPy s).1 = PyVal.none) ∧
    ((topPy (⟨0, [PyVal.none]⟩ : Stack PyVal)).1 = (topPy (⟨0, []⟩ : Stack PyVal)).1 ∧
      is_empty (⟨0, [PyVal.none]⟩ : Stack PyVal) = false ∧
      is_empty (⟨0, []⟩ : Stack PyVal) = true) := by
  refine ⟨fun s => rfl, ?_, by decide⟩
  intro s h
  unfold topPy
  rw [h]
  rfl

/-- Witness for C10 at a concrete input: `top()` on the empty stack returns
Python `None`. -/
theorem claimC10_top_witness :
    (topPy (⟨0, []⟩ : Stack PyVal)).1 = PyVal.none :=
  claimC10_top.2.1 (⟨0, []⟩ : Stack PyVal) rfl

end Stack
